import Mathlib

/-
  Verification of the oaipmh-scythe pagination/iteration engine.

  Shallow embedding of the core modules:
  - utils.py        : remove_none_values, filter_dict_except_resumption_token
  - exceptions.py   : the OAI-PMH exception class hierarchy (as an enumeration
                      of class names, with the module attribute lookup used by
                      the dynamic getattr dispatch)
  - iterator.py     : BaseOAIIterator._next_response error handling and token
                      extraction, OAIResponseIterator and OAIItemIterator
                      iteration, modelled as trace-producing functions over a
                      list of server pages
  - client.py       : Scythe.harvest retry loop and Scythe.get_retry_after
  - response.py     : raise_for_error
-/

namespace OaipmhScythe

/-- An effective HTTP query: ordered association list of parameter name to
string value, mirroring a Python dict of str to str (insertion ordered). -/
abbrev Query := List (String × String)

/-- A raw query as built by the verb methods in client.py: parameter name to
optional value; None values mark filters that were not supplied. -/
abbrev RawQuery := List (String × Option String)

/-- Python d.get(k) on an insertion-ordered dict modelled as an association
list: the value of the first entry with key k, if any. -/
def dictGet (d : RawQuery) (k : String) : Option (Option String) :=
  (d.find? (fun kv => kv.1 == k)).map (fun kv => kv.2)

/-- utils.remove_none_values: drop the entries whose value is None, keeping
order. -/
def remove_none_values (d : RawQuery) : Query :=
  d.filterMap (fun kv => kv.2.map (fun v => (kv.1, v)))

/-- The allowed_keys tuple of utils.filter_dict_except_resumption_token. -/
def allowed_keys : List String := ["verb", "resumptionToken"]

/-- utils.filter_dict_except_resumption_token: if the (required) key
resumptionToken maps to a non-None value, keep only the allowed keys, else
return the dict unchanged. The source reads d with a plain subscript, so a
missing resumptionToken key is a KeyError, modelled as the error case. The
source condition is literally the conjunction of resumption_token_present
with itself, kept as such here. -/
def filter_dict_except_resumption_token (d : RawQuery) : Except String RawQuery :=
  match dictGet d "resumptionToken" with
  | none => Except.error "KeyError"
  | some tok =>
    let resumption_token_present := tok.isSome
    if resumption_token_present && resumption_token_present then
      Except.ok (d.filter (fun kv => allowed_keys.contains kv.1))
    else
      Except.ok d

/-- The raw query dict built by client.Scythe.list_records, in source key
order: verb, from, until, metadataPrefix, set, resumptionToken. -/
def list_records_raw_query (from_ until_ : Option String) (metadataPfx : String)
    (set_ resumption_token : Option String) : RawQuery :=
  [("verb", some "ListRecords"), ("from", from_), ("until", until_),
   ("metadataPrefix", some metadataPfx), ("set", set_),
   ("resumptionToken", resumption_token)]

/-- The effective query a verb method passes to the iterator:
remove_none_values composed with filter_dict_except_resumption_token. -/
def effective_query (d : RawQuery) : Except String Query :=
  (filter_dict_except_resumption_token d).map remove_none_values

/-- The exception classes defined in exceptions.py, one constructor per
class statement of the module. -/
inductive ExcClass where
  | OAIPMHException
  | BadArgument
  | BadVerb
  | BadResumptionToken
  | CannotDisseminateFormat
  | IdDoesNotExist
  | NoSetHierarchy
  | NoMetadataFormat
  | NoRecordsMatch
  | GeneralOAIPMHError
  deriving DecidableEq, Repr

/-- getattr(exceptions, name): look a name up among the class statements of
exceptions.py (the module's only definitions); none models the
AttributeError raised for a name not defined there. Interpreter-provided
module and type attributes (all of which begin with an underscore, such as
the module name or docstring, where getattr would succeed with a non-class
object and the subsequent raise would throw TypeError) are outside this
model; the theorem that dispatches through this lookup for arbitrary codes
is therefore restricted to names that cannot begin with an underscore. -/
def exceptionsGetattr (name : String) : Option ExcClass :=
  if name == "OAIPMHException" then some ExcClass.OAIPMHException
  else if name == "BadArgument" then some ExcClass.BadArgument
  else if name == "BadVerb" then some ExcClass.BadVerb
  else if name == "BadResumptionToken" then some ExcClass.BadResumptionToken
  else if name == "CannotDisseminateFormat" then some ExcClass.CannotDisseminateFormat
  else if name == "IdDoesNotExist" then some ExcClass.IdDoesNotExist
  else if name == "NoSetHierarchy" then some ExcClass.NoSetHierarchy
  else if name == "NoMetadataFormat" then some ExcClass.NoMetadataFormat
  else if name == "NoRecordsMatch" then some ExcClass.NoRecordsMatch
  else if name == "GeneralOAIPMHError" then some ExcClass.GeneralOAIPMHError
  else none

/-- What the error-handling block of BaseOAIIterator._next_response raises:
an exceptions.py exception carrying a message, or the IndexError escaping
from indexing the first character of an empty code string. -/
inductive Raised where
  | oaipmh (cls : ExcClass) (msg : String)
  | indexError
  deriving DecidableEq, Repr

/-- An OAI error element as seen by the iterator: its optional code
attribute and its optional text. -/
structure ErrorElem where
  code : Option String
  text : Option String
  deriving DecidableEq, Repr

/-- A resumptionToken XML element: optional text and the three attributes
read by BaseOAIIterator._get_resumption_token. -/
structure TokenElem where
  text : Option String
  cursor : Option String
  completeListSize : Option String
  expirationDate : Option String
  deriving DecidableEq, Repr

/-- models.ResumptionToken: all four fields optional strings. -/
structure ResumptionToken where
  token : Option String
  cursor : Option String
  complete_list_size : Option String
  expiration_date : Option String
  deriving DecidableEq, Repr

/-- One OAI item as mapped by the class_mapping (a Header or Record): an
identifier and the deleted flag derived from the status attribute. -/
structure Item where
  identifier : String
  deleted : Bool
  deriving DecidableEq, Repr

/-- One page of an OAI response, as inspected by the iterator: the first
error element found (if any), the first resumptionToken element found (if
any), and the elements matching the verb's tag, in document order. -/
structure Page where
  error : Option ErrorElem
  tokenElem : Option TokenElem
  items : List Item
  deriving DecidableEq, Repr

/-- Python code[0].upper() + code[1:]: none models the IndexError raised by
code[0] on the empty string. Char.toUpper performs the ASCII case mapping,
on which Python str.upper() agrees; Python's full Unicode mapping on other
first characters (for instance the dotless i upper-casing to I) is not
modelled, so the theorem dispatching through this function is restricted to
codes whose first character is ASCII. -/
def upperFirst (s : String) : Option String :=
  match s.data with
  | [] => none
  | c :: cs => some (String.mk (Char.toUpper c :: cs))

/-- The error branch of BaseOAIIterator._next_response (iterator.py
115-122): code defaults to UNKNOWN when the attribute is missing, the
description is the element text or the empty string, the exception class is
looked up under the code with its first letter upper-cased, and only
AttributeError from that lookup is converted to GeneralOAIPMHError; the
IndexError from indexing an empty code propagates. -/
def handleError (err : ErrorElem) : Raised :=
  let code := err.code.getD "UNKNOWN"
  let description := err.text.getD ""
  match upperFirst code with
  | none => Raised.indexError
  | some exceptionName =>
    match exceptionsGetattr exceptionName with
    | some cls => Raised.oaipmh cls description
    | none => Raised.oaipmh ExcClass.GeneralOAIPMHError description

/-- BaseOAIIterator._get_resumption_token: a ResumptionToken built from the
token element whenever that element is present, else none. -/
def get_resumption_token (p : Page) : Option ResumptionToken :=
  p.tokenElem.map (fun te =>
    ResumptionToken.mk te.text te.cursor te.completeListSize te.expirationDate)

/-- Truthiness of self.resumption_token and self.resumption_token.token: the
object is truthy whenever present, and the token string is truthy when not
None and not empty. -/
def tokenLive : Option ResumptionToken → Bool
  | some rt =>
    match rt.token with
    | some s => decide (s ≠ "")
    | none => false
  | none => false

/-- The token string carried by a live resumption token (empty when dead;
only used under tokenLive). -/
def tokenValue : Option ResumptionToken → String
  | some rt => rt.token.getD ""
  | none => ""

/-- The params update at the top of BaseOAIIterator._next_response
(iterator.py 111-112): when a live token is held, the query collapses to
resumptionToken and verb, in that order; otherwise params are unchanged. -/
def stepParams (verb : String) (rt : Option ResumptionToken) (params : Query) : Query :=
  if tokenLive rt then [("resumptionToken", tokenValue rt), ("verb", verb)]
  else params

/-- BaseOAIIterator.__init__ runs _next_response once: the first page is
fetched during construction; an error element in it raises there, otherwise
the token and the page's matching elements become the iterator state. -/
def constructIterator (p : Page) : Except Raised (Option ResumptionToken × List Item) :=
  match p.error with
  | some err => Except.error (handleError err)
  | none => Except.ok (get_resumption_token p, p.items)

/-- How one iteration of the OAIItemIterator.__iter__ for-loop filters a
page's items: with ignore_deleted set, deleted items are skipped. -/
def filterItems (ignore_deleted : Bool) (items : List Item) : List Item :=
  items.filter (fun it => !(ignore_deleted && it.deleted))

/-- How a run of an iterator ended: the generator returned (done), a raise
propagated, or the model ran out of server pages while a live token asked
for another request (starved - the request is still counted as issued). -/
inductive Outcome where
  | done
  | raised (e : Raised)
  | starved
  deriving DecidableEq, Repr

/-- The observable trace of an OAIItemIterator run: every HTTP request's
query in order, every yielded item in order, and how the run ended. -/
structure RunTrace where
  queries : List Query
  yielded : List Item
  outcome : Outcome
  deriving DecidableEq, Repr

/-- The observable trace of an OAIResponseIterator run: request queries,
yielded pages, and how the run ended. -/
structure RespTrace where
  queries : List Query
  yielded : List Page
  outcome : Outcome
  deriving DecidableEq, Repr

/-- The OAIItemIterator.__iter__ loop after the current page's items have
been yielded: while the stored token is live, _next_response is called on
the next server page (query per stepParams, then the error check, then
token extraction), the fetched page's items are yielded filtered, and the
loop repeats; a dead token returns. -/
def itemLoop (verb : String) (ignore_deleted : Bool) :
    List Page → Query → Option ResumptionToken → RunTrace
  | pages, params, rt =>
    if tokenLive rt then
      match pages with
      | [] => RunTrace.mk [stepParams verb rt params] [] Outcome.starved
      | p :: rest =>
        let params' := stepParams verb rt params
        match p.error with
        | some err => RunTrace.mk [params'] [] (Outcome.raised (handleError err))
        | none =>
          let t := itemLoop verb ignore_deleted rest params' (get_resumption_token p)
          RunTrace.mk (params' :: t.queries)
            (filterItems ignore_deleted p.items ++ t.yielded) t.outcome
    else RunTrace.mk [] [] Outcome.done

/-- A full OAIItemIterator run against a list of server pages: construction
fetches the first page with the initial query (raising on an error
element), then the __iter__ loop yields that page's items filtered and
paginates through the remaining pages. -/
def runItemIterator (verb : String) (ignore_deleted : Bool) (q0 : Query) :
    List Page → RunTrace
  | [] => RunTrace.mk [q0] [] Outcome.starved
  | p :: rest =>
    match constructIterator p with
    | Except.error e => RunTrace.mk [q0] [] (Outcome.raised e)
    | Except.ok (rt, items) =>
      let t := itemLoop verb ignore_deleted rest q0 rt
      RunTrace.mk (q0 :: t.queries) (filterItems ignore_deleted items ++ t.yielded)
        t.outcome

/-- The OAIResponseIterator.__iter__ loop after the current page has been
yielded: while the stored token is live, _next_response fetches the next
page, which is yielded whole; a dead token returns. -/
def respLoop (verb : String) :
    List Page → Query → Option ResumptionToken → RespTrace
  | pages, params, rt =>
    if tokenLive rt then
      match pages with
      | [] => RespTrace.mk [stepParams verb rt params] [] Outcome.starved
      | p :: rest =>
        let params' := stepParams verb rt params
        match p.error with
        | some err => RespTrace.mk [params'] [] (Outcome.raised (handleError err))
        | none =>
          let t := respLoop verb rest params' (get_resumption_token p)
          RespTrace.mk (params' :: t.queries) (p :: t.yielded) t.outcome
    else RespTrace.mk [] [] Outcome.done

/-- A full OAIResponseIterator run against a list of server pages:
construction fetches the first page (raising on an error element), then the
loop yields each fetched page once and paginates by token. -/
def runResponseIterator (verb : String) (q0 : Query) : List Page → RespTrace
  | [] => RespTrace.mk [q0] [] Outcome.starved
  | p :: rest =>
    match constructIterator p with
    | Except.error e => RespTrace.mk [q0] [] (Outcome.raised e)
    | Except.ok (rt, _) =>
      let t := respLoop verb rest q0 rt
      RespTrace.mk (q0 :: t.queries) (p :: t.yielded) t.outcome

/-- One HTTP response as seen by the retry logic of client.Scythe: its
status code and its optional retry-after header. -/
structure HttpResponse where
  status_code : Nat
  retry_after_header : Option String
  deriving DecidableEq, Repr

/-- httpx.codes.is_error: status codes from 400 up to but excluding 600;
also the range for which raise_for_status raises. -/
def is_error (status : Nat) : Bool :=
  decide (400 ≤ status) && decide (status < 600)

/-- Value of a decimal digit run, most significant first. -/
def digitsToNat (cs : List Char) : Nat :=
  cs.foldl (fun acc c => acc * 10 + (c.toNat - 48)) 0

/-- Surrounding whitespace stripped from a character list. -/
def stripChars (cs : List Char) : List Char :=
  ((cs.dropWhile Char.isWhitespace).reverse.dropWhile Char.isWhitespace).reverse

/-- Python int(s) on a string: surrounding whitespace stripped, an optional
single sign, then a non-empty run of digits; none models the ValueError
raised on any other shape. Python additionally accepts digit-group
underscores and non-ASCII decimal digits, which this model does not; it is
used only to supply the integer value in a hypothesis, so the narrowing
asserts nothing about the program. -/
def pyIntOfString (s : String) : Option Int :=
  match stripChars s.data with
  | [] => none
  | c :: cs =>
    if c == '-' then
      if !cs.isEmpty && cs.all Char.isDigit then some (-(digitsToNat cs : Int)) else none
    else if c == '+' then
      if !cs.isEmpty && cs.all Char.isDigit then some (digitsToNat cs : Int) else none
    else if (c :: cs).all Char.isDigit then some (digitsToNat (c :: cs) : Int)
    else none

/-- What client.Scythe.get_retry_after evaluates to: a wait in seconds, or
the ValueError escaping from int() on a non-integer header value. -/
inductive RetryAfterResult where
  | ok (seconds : Int)
  | valueError
  deriving DecidableEq, Repr

/-- client.Scythe.get_retry_after: on status 503 the retry-after header is
passed to int(), where a missing header (int(None)) raises the TypeError
that the source catches into the configured default, while a present
non-integer value raises an uncaught ValueError; any other status returns
the default directly. -/
def get_retry_after (default_retry_after : Int) (r : HttpResponse) : RetryAfterResult :=
  if r.status_code == 503 then
    match r.retry_after_header with
    | none => RetryAfterResult.ok default_retry_after
    | some s =>
      match pyIntOfString s with
      | some n => RetryAfterResult.ok n
      | none => RetryAfterResult.valueError
  else RetryAfterResult.ok default_retry_after

/-- The constructor defaults of client.Scythe relevant to retrying:
max_retries 0, no retry_status_codes override, default_retry_after 60. -/
structure ScytheInit where
  max_retries : Nat := 0
  retry_status_codes : Option (List Nat) := none
  default_retry_after : Int := 60
  deriving DecidableEq, Repr

/-- The retry_status_codes or (503,) fallback in client.Scythe.__init__:
a missing or empty (falsy) iterable becomes the singleton 503. -/
def ScytheInit.retryCodes (c : ScytheInit) : List Nat :=
  match c.retry_status_codes with
  | some l => if l.isEmpty then [503] else l
  | none => [503]

/-- State threaded through the client.Scythe.harvest retry loop: how many
requests were sent, the sleeps performed in order, and the latest
response. -/
structure HarvestState where
  requests : Nat
  sleeps : List Int
  current : HttpResponse
  deriving DecidableEq, Repr

/-- How client.Scythe.harvest ends: a response accepted (OAIResponse
built), the HTTPStatusError from raise_for_status, or the ValueError from a
non-integer retry-after header. -/
inductive HarvestOutcome where
  | ok (resp : HttpResponse)
  | httpStatusError (status : Nat)
  | valueError
  deriving DecidableEq, Repr

/-- The observable trace of one client.Scythe.harvest call. -/
structure HarvestTrace where
  requests : Nat
  sleeps : List Int
  outcome : HarvestOutcome
  deriving DecidableEq, Repr

/-- The for-loop of client.Scythe.harvest: it always runs max_retries
iterations, re-requesting (after a sleep of get_retry_after seconds) only
when the current response's status is an error inside the configured
retryable set. The transport maps the zero-based request index to the
response it returns. -/
def harvestLoop (codes : List Nat) (dflt : Int) (transport : Nat → HttpResponse) :
    Nat → HarvestState → Except HarvestState HarvestState
  | 0, st => Except.ok st
  | n + 1, st =>
    if is_error st.current.status_code && codes.contains st.current.status_code then
      match get_retry_after dflt st.current with
      | RetryAfterResult.valueError => Except.error st
      | RetryAfterResult.ok ra =>
        harvestLoop codes dflt transport n
          (HarvestState.mk (st.requests + 1) (st.sleeps ++ [ra]) (transport st.requests))
    else harvestLoop codes dflt transport n st

/-- client.Scythe.harvest: one initial request, the retry for-loop, then
raise_for_status on whatever response is current. -/
def harvest (max_retries : Nat) (codes : List Nat) (dflt : Int)
    (transport : Nat → HttpResponse) : HarvestTrace :=
  match harvestLoop codes dflt transport max_retries (HarvestState.mk 1 [] (transport 0)) with
  | Except.error st => HarvestTrace.mk st.requests st.sleeps HarvestOutcome.valueError
  | Except.ok st =>
    if is_error st.current.status_code then
      HarvestTrace.mk st.requests st.sleeps (HarvestOutcome.httpStatusError st.current.status_code)
    else HarvestTrace.mk st.requests st.sleeps (HarvestOutcome.ok st.current)

/-- Modelled from the spec: the eight protocol error codes of the error
taxonomy. The xsdata-generated dataclass module models/oai_pmh/models.py is
absent from the sources; its enum members are referenced by exactly these
names in the match arms of response.raise_for_error. -/
inductive OaiPmherrorcode where
  | BAD_ARGUMENT
  | BAD_RESUMPTION_TOKEN
  | BAD_VERB
  | CANNOT_DISSEMINATE_FORMAT
  | ID_DOES_NOT_EXIST
  | NO_METADATA_FORMATS
  | NO_RECORDS_MATCH
  | NO_SET_HIERARCHY
  deriving DecidableEq, Repr

/-- Modelled from the spec: a parsed protocol error element as handed to
response.raise_for_error, with the text content (value) and the optional
enum-typed code attribute that response.raise_for_error reads. -/
structure OaiPmherror where
  value : Option String
  code : Option OaiPmherrorcode
  deriving DecidableEq, Repr

/-- How response.raise_for_error ends: it returned None, it raised one of
the exceptions.py classes with the error's value as message, or the lookup
of the undefined name exceptions.UndefinedError raised AttributeError. -/
inductive RaiseForErrorOutcome where
  | returnedNone
  | raisedException (cls : ExcClass) (msg : Option String)
  | attributeError
  deriving DecidableEq, Repr

/-- The for-loop of response.raise_for_error: the first error decides the
outcome, since every arm of the match raises, and a falsy (None) code falls
through to raise exceptions.UndefinedError, whose attribute lookup is
modelled by exceptionsGetattr. -/
def raise_for_error_loop : List OaiPmherror → RaiseForErrorOutcome
  | [] => RaiseForErrorOutcome.returnedNone
  | e :: _ =>
    match e.code with
    | some OaiPmherrorcode.BAD_ARGUMENT =>
      RaiseForErrorOutcome.raisedException ExcClass.BadArgument e.value
    | some OaiPmherrorcode.BAD_RESUMPTION_TOKEN =>
      RaiseForErrorOutcome.raisedException ExcClass.BadResumptionToken e.value
    | some OaiPmherrorcode.BAD_VERB =>
      RaiseForErrorOutcome.raisedException ExcClass.BadVerb e.value
    | some OaiPmherrorcode.CANNOT_DISSEMINATE_FORMAT =>
      RaiseForErrorOutcome.raisedException ExcClass.CannotDisseminateFormat e.value
    | some OaiPmherrorcode.ID_DOES_NOT_EXIST =>
      RaiseForErrorOutcome.raisedException ExcClass.IdDoesNotExist e.value
    | some OaiPmherrorcode.NO_METADATA_FORMATS =>
      RaiseForErrorOutcome.raisedException ExcClass.NoMetadataFormat e.value
    | some OaiPmherrorcode.NO_RECORDS_MATCH =>
      RaiseForErrorOutcome.raisedException ExcClass.NoRecordsMatch e.value
    | some OaiPmherrorcode.NO_SET_HIERARCHY =>
      RaiseForErrorOutcome.raisedException ExcClass.NoSetHierarchy e.value
    | none =>
      match exceptionsGetattr "UndefinedError" with
      | some cls => RaiseForErrorOutcome.raisedException cls e.value
      | none => RaiseForErrorOutcome.attributeError

/-- response.raise_for_error: a None error list returns None, otherwise the
loop over the errors runs. -/
def raise_for_error : Option (List OaiPmherror) → RaiseForErrorOutcome
  | none => RaiseForErrorOutcome.returnedNone
  | some errs => raise_for_error_loop errs

/-- Modelled from the claim of the spec's error-dispatch sentence, for
refinement against handleError: raise the exception whose class name is the
error code with its first letter upper-cased when that names a known class,
and the catch-all GeneralOAIPMHError otherwise; a missing code behaves as
the unmatchable code UNKNOWN. The empty-code arm is the amendment forced by
the source (an IndexError) and is excluded, together with codes whose first
character is non-ASCII or an underscore, by the amended claim's domain
restriction (codeInModeledDomain). -/
def claimedRaise (code : Option String) (msg : String) : Raised :=
  match code with
  | none => Raised.oaipmh ExcClass.GeneralOAIPMHError msg
  | some c =>
    match c.data with
    | [] => Raised.indexError
    | ch :: rest =>
      match exceptionsGetattr (String.mk (Char.toUpper ch :: rest)) with
      | some cls => Raised.oaipmh cls msg
      | none => Raised.oaipmh ExcClass.GeneralOAIPMHError msg

/-- The domain of error codes on which the embedding of the getattr
dispatch of iterator.py 115-122 is exact: the code attribute is absent
(falling back to UNKNOWN), or non-empty with an ASCII first character that
is not an underscore. Upper-casing touches only the first character, every
interpreter-provided module or type attribute of exceptions.py begins with
an underscore, and ASCII upper-casing never produces one, so on this domain
getattr can only find one of the module's ten class statements or raise
AttributeError, exactly as exceptionsGetattr models. Outside it the program
diverges from the claim: an empty code raises IndexError, a leading
underscore can resolve to a non-class module attribute whose call raises
TypeError, and a non-ASCII first letter follows Python's full Unicode
upper-casing. -/
def codeInModeledDomain : Option String → Bool
  | none => true
  | some c =>
    match c.data with
    | [] => false
    | ch :: _ => decide (ch ≠ '_') && decide (ch.toNat < 128)

theorem tokenValue_ne_of_live {rt : Option ResumptionToken} (h : tokenLive rt = true) :
    tokenValue rt ≠ "" := by
  match rt with
  | none => simp [tokenLive] at h
  | some r =>
    match hr : r.token with
    | none => simp [tokenLive, hr] at h
    | some s =>
      simp [tokenLive, hr] at h
      simpa [tokenValue, hr] using h

theorem stepParams_live {rt : Option ResumptionToken} (verb : String) (params : Query)
    (h : tokenLive rt = true) :
    stepParams verb rt params = [("resumptionToken", tokenValue rt), ("verb", verb)] := by
  simp [stepParams, h]

theorem itemLoop_dead (verb : String) (ign : Bool) (pages : List Page) (params : Query)
    (rt : Option ResumptionToken) (h : tokenLive rt = false) :
    itemLoop verb ign pages params rt = RunTrace.mk [] [] Outcome.done := by
  cases pages <;> simp [itemLoop, h]

theorem respLoop_dead (verb : String) (pages : List Page) (params : Query)
    (rt : Option ResumptionToken) (h : tokenLive rt = false) :
    respLoop verb pages params rt = RespTrace.mk [] [] Outcome.done := by
  cases pages <;> simp [respLoop, h]

theorem itemLoop_queries_pos (verb : String) (ign : Bool) (pages : List Page)
    (params : Query) (rt : Option ResumptionToken) (h : tokenLive rt = true) :
    1 ≤ (itemLoop verb ign pages params rt).queries.length := by
  cases pages with
  | nil => simp [itemLoop, h]
  | cons p rest =>
    cases herr : p.error with
    | some err => simp [itemLoop, h, herr]
    | none => simp [itemLoop, h, herr]

/-- C10: a protocol error element whose code attribute is present but empty
makes the page-fetch step raise IndexError (from indexing the first
character of the code); only a missing attribute falls back to UNKNOWN
(which becomes GeneralOAIPMHError), and IndexError is not mapped to the
catch-all protocol exception. -/
theorem c10_empty_code_index_error :
    (∀ (txt : Option String) (te : Option TokenElem) (items : List Item) (rest : List Page)
        (q0 : Query) (verb : String) (ign : Bool),
      runItemIterator verb ign q0 (Page.mk (some (ErrorElem.mk (some "") txt)) te items :: rest)
        = RunTrace.mk [q0] [] (Outcome.raised Raised.indexError))
    ∧ (∀ txt : Option String,
        handleError (ErrorElem.mk none txt)
          = Raised.oaipmh ExcClass.GeneralOAIPMHError (txt.getD ""))
    ∧ ∀ m : String, Raised.indexError ≠ Raised.oaipmh ExcClass.GeneralOAIPMHError m := by
  refine ⟨?_, ?_, ?_⟩
  · intro txt te items rest q0 verb ign
    simp [runItemIterator, constructIterator, handleError, upperFirst]
  · intro txt
    rfl
  · intro m
    simp

/-- C4: a page from which no live resumption token is extracted (element
absent, or its text None or empty) ends the iteration: the page's remaining
items (or the page itself, in response mode) are yielded and no further
HTTP request is issued, for the first page and for any later page alike. -/
theorem c4_token_absent_terminates :
    (∀ (verb : String) (ign : Bool) (q0 : Query) (p : Page) (rest : List Page),
        p.error = none → tokenLive (get_resumption_token p) = false →
        runItemIterator verb ign q0 (p :: rest)
          = RunTrace.mk [q0] (filterItems ign p.items) Outcome.done)
    ∧ (∀ (verb : String) (q0 : Query) (p : Page) (rest : List Page),
        p.error = none → tokenLive (get_resumption_token p) = false →
        runResponseIterator verb q0 (p :: rest) = RespTrace.mk [q0] [p] Outcome.done)
    ∧ (∀ (verb : String) (ign : Bool) (pages : List Page) (params : Query)
        (rt : Option ResumptionToken), tokenLive rt = false →
        itemLoop verb ign pages params rt = RunTrace.mk [] [] Outcome.done)
    ∧ (∀ (verb : String) (pages : List Page) (params : Query)
        (rt : Option ResumptionToken), tokenLive rt = false →
        respLoop verb pages params rt = RespTrace.mk [] [] Outcome.done) := by
  refine ⟨?_, ?_, ?_, ?_⟩
  · intro verb ign q0 p rest herr ht
    simp [runItemIterator, constructIterator, herr, itemLoop_dead _ _ _ _ _ ht]
  · intro verb q0 p rest herr ht
    simp [runResponseIterator, constructIterator, herr, respLoop_dead _ _ _ _ ht]
  · intro verb ign pages params rt ht
    exact itemLoop_dead verb ign pages params rt ht
  · intro verb pages params rt ht
    exact respLoop_dead verb pages params rt ht

/-- Witness for C4 at a concrete one-page fixture without a token. -/
theorem c4_witness :
    runItemIterator "ListIdentifiers" false [("verb", "ListIdentifiers")]
        [Page.mk none none [Item.mk "a" false]]
      = RunTrace.mk [[("verb", "ListIdentifiers")]] [Item.mk "a" false] Outcome.done :=
  c4_token_absent_terminates.1 "ListIdentifiers" false [("verb", "ListIdentifiers")]
    (Page.mk none none [Item.mk "a" false]) [] rfl rfl

/-- C6: a page that parses without error but contributes no yielded items
(after deletion filtering) is not treated as end-of-stream: when its
resumption token is live the run continues into the remaining pages, so at
least a second HTTP request is issued. -/
theorem c6_all_filtered_page_continues :
    ∀ (verb : String) (ign : Bool) (q0 : Query) (p : Page) (rest : List Page),
      p.error = none → filterItems ign p.items = [] →
      tokenLive (get_resumption_token p) = true →
      runItemIterator verb ign q0 (p :: rest)
          = RunTrace.mk (q0 :: (itemLoop verb ign rest q0 (get_resumption_token p)).queries)
              (itemLoop verb ign rest q0 (get_resumption_token p)).yielded
              (itemLoop verb ign rest q0 (get_resumption_token p)).outcome
        ∧ 2 ≤ (runItemIterator verb ign q0 (p :: rest)).queries.length := by
  intro verb ign q0 p rest herr hempty ht
  have hrun : runItemIterator verb ign q0 (p :: rest)
      = RunTrace.mk (q0 :: (itemLoop verb ign rest q0 (get_resumption_token p)).queries)
          (itemLoop verb ign rest q0 (get_resumption_token p)).yielded
          (itemLoop verb ign rest q0 (get_resumption_token p)).outcome := by
    simp [runItemIterator, constructIterator, herr, hempty]
  refine ⟨hrun, ?_⟩
  rw [hrun]
  have := itemLoop_queries_pos verb ign rest q0 (get_resumption_token p) ht
  simpa using this

/-- Witness for C6 at a concrete empty first page with a live token. -/
theorem c6_witness :
    runItemIterator "ListRecords" false [("verb", "ListRecords")]
        [Page.mk none (some (TokenElem.mk (some "t1") none none none)) []]
          = RunTrace.mk
              [[("verb", "ListRecords")], [("resumptionToken", "t1"), ("verb", "ListRecords")]]
              [] Outcome.starved
      ∧ 2 ≤ (runItemIterator "ListRecords" false [("verb", "ListRecords")]
          [Page.mk none (some (TokenElem.mk (some "t1") none none none)) []]).queries.length :=
  c6_all_filtered_page_continues "ListRecords" false [("verb", "ListRecords")]
    (Page.mk none (some (TokenElem.mk (some "t1") none none none)) []) [] rfl rfl rfl

/-- C7: constructing an iterator performs the first HTTP request itself
(the run's first query is always the initial one), and a protocol error in
the first response is raised by the construction step: the run raises with
nothing yielded and exactly that one request, in both modes. -/
theorem c7_construction_is_eager :
    (∀ (verb : String) (ign : Bool) (q0 : Query) (pages : List Page),
        (runItemIterator verb ign q0 pages).queries.head? = some q0)
    ∧ (∀ (verb : String) (ign : Bool) (q0 : Query) (p : Page) (rest : List Page)
        (err : ErrorElem), p.error = some err →
        constructIterator p = Except.error (handleError err)
          ∧ runItemIterator verb ign q0 (p :: rest)
              = RunTrace.mk [q0] [] (Outcome.raised (handleError err)))
    ∧ (∀ (verb : String) (q0 : Query) (p : Page) (rest : List Page) (err : ErrorElem),
        p.error = some err →
        runResponseIterator verb q0 (p :: rest)
          = RespTrace.mk [q0] [] (Outcome.raised (handleError err))) := by
  refine ⟨?_, ?_, ?_⟩
  · intro verb ign q0 pages
    cases pages with
    | nil => rfl
    | cons p rest =>
      cases hc : constructIterator p with
      | error e => simp [runItemIterator, hc]
      | ok pr =>
        obtain ⟨rt, items⟩ := pr
        simp [runItemIterator, hc]
  · intro verb ign q0 p rest err herr
    have hc : constructIterator p = Except.error (handleError err) := by
      simp [constructIterator, herr]
    exact ⟨hc, by simp [runItemIterator, hc]⟩
  · intro verb q0 p rest err herr
    have hc : constructIterator p = Except.error (handleError err) := by
      simp [constructIterator, herr]
    simp [runResponseIterator, hc]

/-- Witness for C7 at a concrete first page carrying a badVerb error. -/
theorem c7_witness :
    constructIterator (Page.mk (some (ErrorElem.mk (some "badVerb") (some "bad"))) none [])
        = Except.error (Raised.oaipmh ExcClass.BadVerb "bad")
      ∧ runItemIterator "ListSets" false [("verb", "Foo")]
          [Page.mk (some (ErrorElem.mk (some "badVerb") (some "bad"))) none []]
        = RunTrace.mk [[("verb", "Foo")]] [] (Outcome.raised (Raised.oaipmh ExcClass.BadVerb "bad")) :=
  c7_construction_is_eager.2.1 "ListSets" false [("verb", "Foo")]
    (Page.mk (some (ErrorElem.mk (some "badVerb") (some "bad"))) none []) []
    (ErrorElem.mk (some "badVerb") (some "bad")) rfl

/-- C8: get_retry_after returns the integer value of the retry-after header
when the status is 503 and the header is present (with an integer value);
with the header absent, or any non-503 status, it returns the configured
default, whose constructor default is 60 seconds. -/
theorem c8_get_retry_after :
    (∀ (dflt : Int) (s : String) (n : Int), pyIntOfString s = some n →
        get_retry_after dflt (HttpResponse.mk 503 (some s)) = RetryAfterResult.ok n)
    ∧ (∀ dflt : Int, get_retry_after dflt (HttpResponse.mk 503 none) = RetryAfterResult.ok dflt)
    ∧ (∀ (dflt : Int) (r : HttpResponse), r.status_code ≠ 503 →
        get_retry_after dflt r = RetryAfterResult.ok dflt)
    ∧ ({} : ScytheInit).default_retry_after = 60 := by
  refine ⟨?_, ?_, ?_, rfl⟩
  · intro dflt s n hs
    simp [get_retry_after, hs]
  · intro dflt
    rfl
  · intro dflt r hr
    simp [get_retry_after, hr]

/-- Witness for C8 with a concrete integer-valued retry-after header. -/
theorem c8_witness :
    get_retry_after 5 (HttpResponse.mk 503 (some "120")) = RetryAfterResult.ok 120 :=
  c8_get_retry_after.1 5 "120" 120 (by decide)

/-- C3: against a transport answering 503 with no retry-after header on
every call, harvest with max_retries 3, default_retry_after 0 and a
retryable set containing 503 sends exactly 4 requests and sleeps exactly 3
times (each for 0 seconds) before the HTTP-failure error; with max_retries
0 a single request is made and no sleep occurs. -/
theorem c3_retry_counts :
    (∀ (transport : Nat → HttpResponse) (codes : List Nat),
        (∀ n, transport n = HttpResponse.mk 503 none) → codes.contains 503 = true →
        harvest 3 codes 0 transport
          = HarvestTrace.mk 4 [0, 0, 0] (HarvestOutcome.httpStatusError 503))
    ∧ (∀ (codes : List Nat) (dflt : Int) (transport : Nat → HttpResponse),
        (harvest 0 codes dflt transport).requests = 1
          ∧ (harvest 0 codes dflt transport).sleeps = []) := by
  constructor
  · intro transport codes ht hc
    have hm : 503 ∈ codes := by simpa using hc
    simp [harvest, harvestLoop, ht, hc, hm, is_error, get_retry_after]
  · intro codes dflt transport
    refine ⟨?_, ?_⟩ <;> (simp only [harvest, harvestLoop]; split <;> rfl)

/-- Witness for C3 at the concrete always-503 transport. -/
theorem c3_witness :
    harvest 3 [503] 0 (fun _ => HttpResponse.mk 503 none)
      = HarvestTrace.mk 4 [0, 0, 0] (HarvestOutcome.httpStatusError 503) :=
  c3_retry_counts.1 (fun _ => HttpResponse.mk 503 none) [503] (fun _ => rfl) rfl

/-- C1 counterexample: an error element whose code attribute is the empty
string makes the page-fetch step raise IndexError, not an exceptions.py
protocol exception, refuting the claim's universal catch-all for codes that
name no known exception class. -/
theorem c1_counterexample :
    runItemIterator "ListRecords" false [("verb", "ListRecords")]
        [Page.mk (some (ErrorElem.mk (some "") (some "oops"))) none []]
      = RunTrace.mk [[("verb", "ListRecords")]] [] (Outcome.raised Raised.indexError)
    ∧ Raised.indexError ≠ Raised.oaipmh ExcClass.GeneralOAIPMHError "oops" := by
  constructor
  · rfl
  · simp

/-- C1 (amended): for every error element whose code is in the modelled
domain (attribute absent, or non-empty with an ASCII, non-underscore first
character), the page-fetch step raises exactly the claim's dispatch
(claimedRaise: the class named by the code with its first letter
upper-cased when known, the catch-all GeneralOAIPMHError otherwise, with an
absent code falling back to UNKNOWN) carrying the element's text as
message, with no items yielded, no token stored and no further request
issued beyond the one that fetched the error page. Outside the domain the
program diverges: an empty code raises IndexError, a leading underscore can
hit an implicit module attribute and raise TypeError, and a non-ASCII first
letter follows Python's Unicode upper-casing. -/
theorem c1_error_dispatch :
    ∀ (err : ErrorElem) (te : Option TokenElem) (items : List Item) (rest : List Page)
      (q0 : Query) (verb : String) (ign : Bool),
      codeInModeledDomain err.code = true →
      runItemIterator verb ign q0 (Page.mk (some err) te items :: rest)
        = RunTrace.mk [q0] [] (Outcome.raised (claimedRaise err.code (err.text.getD ""))) := by
  intro err te items rest q0 verb ign hcode
  obtain ⟨code, text⟩ := err
  have hh : handleError (ErrorElem.mk code text)
      = claimedRaise code (text.getD "") := by
    cases code with
    | none => rfl
    | some c =>
      cases hd : c.data with
      | nil => simp [codeInModeledDomain, hd] at hcode
      | cons ch cs =>
        simp only [handleError, claimedRaise, upperFirst, Option.getD_some, hd]
  simp [runItemIterator, constructIterator, hh]

/-- Witness for C1 at a concrete noRecordsMatch error element. -/
theorem c1_witness :
    runItemIterator "ListRecords" false [("verb", "ListRecords")]
        [Page.mk (some (ErrorElem.mk (some "noRecordsMatch") (some "no records"))) none []]
      = RunTrace.mk [[("verb", "ListRecords")]] []
          (Outcome.raised (Raised.oaipmh ExcClass.NoRecordsMatch "no records")) :=
  c1_error_dispatch (ErrorElem.mk (some "noRecordsMatch") (some "no records")) none [] []
    [("verb", "ListRecords")] "ListRecords" false (by decide)

theorem filterItems_false (l : List Item) : filterItems false l = l := by
  simp [filterItems]

theorem filterItems_true (l : List Item) :
    filterItems true l = l.filter (fun it => !it.deleted) := by
  simp [filterItems]

theorem length_filter_split (l : List Item) (p : Item → Bool) :
    (l.filter p).length + (l.filter (fun a => !p a)).length = l.length := by
  induction l with
  | nil => rfl
  | cons a l ih =>
    cases hpa : p a <;> simp [List.filter_cons, hpa, ← ih] <;> omega

theorem itemLoop_ignore_deleted (verb : String) :
    ∀ (pages : List Page) (params : Query) (rt : Option ResumptionToken),
      (itemLoop verb true pages params rt).yielded
          = ((itemLoop verb false pages params rt).yielded).filter (fun it => !it.deleted)
        ∧ (itemLoop verb true pages params rt).queries
            = (itemLoop verb false pages params rt).queries
        ∧ (itemLoop verb true pages params rt).outcome
            = (itemLoop verb false pages params rt).outcome := by
  intro pages
  induction pages with
  | nil =>
    intro params rt
    cases ht : tokenLive rt <;> simp [itemLoop, ht]
  | cons p rest ih =>
    intro params rt
    cases ht : tokenLive rt with
    | false => simp [itemLoop, ht]
    | true =>
      cases herr : p.error with
      | some err => simp [itemLoop, ht, herr]
      | none =>
        obtain ⟨hy, hq, ho⟩ := ih (stepParams verb rt params) (get_resumption_token p)
        simp [itemLoop, ht, herr, hy, hq, ho, filterItems_true, filterItems_false,
          List.filter_append]

/-- C5 counterexample: for a run with no deleted items the ignore_deleted
output coincides with the full output (here a single non-deleted item), so
it is not a strict subset of it. -/
theorem c5_counterexample :
    (runItemIterator "ListRecords" true [("verb", "ListRecords")]
        [Page.mk none none [Item.mk "a" false]]).yielded
      = (runItemIterator "ListRecords" false [("verb", "ListRecords")]
        [Page.mk none none [Item.mk "a" false]]).yielded
    ∧ (runItemIterator "ListRecords" false [("verb", "ListRecords")]
        [Page.mk none none [Item.mk "a" false]]).yielded = [Item.mk "a" false] := by
  constructor <;> rfl

/-- C5 (amended): for every query and page sequence, the ignore_deleted
item sequence is the subsequence of the full sequence obtained by removing
exactly the deleted items (a strict one precisely when a deleted item
occurs); the full count equals the filtered count plus the number of
deleted items across the visited pages, and pagination (the requests
issued) is unchanged. -/
theorem c5_ignore_deleted_subsequence :
    ∀ (verb : String) (q0 : Query) (pages : List Page),
      (runItemIterator verb true q0 pages).yielded
          = ((runItemIterator verb false q0 pages).yielded).filter (fun it => !it.deleted)
        ∧ ((runItemIterator verb true q0 pages).yielded).Sublist
            ((runItemIterator verb false q0 pages).yielded)
        ∧ (runItemIterator verb false q0 pages).yielded.length
            = (runItemIterator verb true q0 pages).yielded.length
              + (((runItemIterator verb false q0 pages).yielded).filter
                  (fun it => it.deleted)).length
        ∧ (runItemIterator verb true q0 pages).queries
            = (runItemIterator verb false q0 pages).queries := by
  intro verb q0 pages
  have key : (runItemIterator verb true q0 pages).yielded
      = ((runItemIterator verb false q0 pages).yielded).filter (fun it => !it.deleted)
      ∧ (runItemIterator verb true q0 pages).queries
        = (runItemIterator verb false q0 pages).queries := by
    cases pages with
    | nil => exact ⟨rfl, rfl⟩
    | cons p rest =>
      cases hc : constructIterator p with
      | error e => simp [runItemIterator, hc]
      | ok pr =>
        obtain ⟨rt, items⟩ := pr
        obtain ⟨hy, hq, _⟩ := itemLoop_ignore_deleted verb rest q0 rt
        simp [runItemIterator, hc, hy, hq, filterItems_true, filterItems_false,
          List.filter_append]
  obtain ⟨hy, hq⟩ := key
  refine ⟨hy, ?_, ?_, hq⟩
  · rw [hy]; exact List.filter_sublist _
  · rw [hy]
    have := length_filter_split ((runItemIterator verb false q0 pages).yielded)
      (fun it => !it.deleted)
    simp only [Bool.not_not] at this
    omega

/-- C9 counterexample: an error list that contains a None-coded error
behind an error with a known code raises that known protocol exception, not
AttributeError, because the loop's first iteration already raises. -/
theorem c9_counterexample :
    raise_for_error (some [OaiPmherror.mk (some "bad") (some OaiPmherrorcode.BAD_ARGUMENT),
        OaiPmherror.mk (some "mystery") none])
      = RaiseForErrorOutcome.raisedException ExcClass.BadArgument (some "bad")
    ∧ RaiseForErrorOutcome.raisedException ExcClass.BadArgument (some "bad")
        ≠ RaiseForErrorOutcome.attributeError := by
  constructor
  · rfl
  · simp

/-- C9 (amended): the name UndefinedError is not defined in exceptions.py,
so for every parsed error list whose first error has code None (with the
enum-typed code, a present code always matches one of the eight known
codes), raise_for_error raises AttributeError from the
exceptions.UndefinedError lookup, an outcome distinct from every raise of
the documented exception hierarchy. -/
theorem c9_undefined_error :
    exceptionsGetattr "UndefinedError" = none
    ∧ (∀ (e : OaiPmherror) (rest : List OaiPmherror), e.code = none →
        raise_for_error (some (e :: rest)) = RaiseForErrorOutcome.attributeError)
    ∧ ∀ (cls : ExcClass) (msg : Option String),
        RaiseForErrorOutcome.attributeError ≠ RaiseForErrorOutcome.raisedException cls msg := by
  refine ⟨rfl, ?_, ?_⟩
  · intro e rest hc
    have h0 : exceptionsGetattr "UndefinedError" = none := rfl
    simp [raise_for_error, raise_for_error_loop, hc, h0]
  · intro cls msg
    simp

/-- Witness for C9 at a concrete single None-coded error. -/
theorem c9_witness :
    raise_for_error (some [OaiPmherror.mk (some "mystery") none])
      = RaiseForErrorOutcome.attributeError :=
  c9_undefined_error.2.1 (OaiPmherror.mk (some "mystery") none) [] rfl

theorem itemLoop_queries_shape (verb : String) (ign : Bool) :
    ∀ (pages : List Page) (params : Query) (rt : Option ResumptionToken) (q : Query),
      q ∈ (itemLoop verb ign pages params rt).queries →
      ∃ s, s ≠ "" ∧ q = [("resumptionToken", s), ("verb", verb)] := by
  intro pages
  induction pages with
  | nil =>
    intro params rt q hq
    cases ht : tokenLive rt with
    | false => rw [itemLoop_dead verb ign [] params rt ht] at hq; simp at hq
    | true =>
      rw [itemLoop] at hq
      rw [if_pos ht, stepParams_live verb params ht] at hq
      simp at hq
      exact ⟨tokenValue rt, tokenValue_ne_of_live ht, hq⟩
  | cons p rest ih =>
    intro params rt q hq
    cases ht : tokenLive rt with
    | false => rw [itemLoop_dead verb ign (p :: rest) params rt ht] at hq; simp at hq
    | true =>
      cases herr : p.error with
      | some err =>
        rw [itemLoop] at hq
        rw [if_pos ht] at hq
        simp only [herr] at hq
        rw [stepParams_live verb params ht] at hq
        simp at hq
        exact ⟨tokenValue rt, tokenValue_ne_of_live ht, hq⟩
      | none =>
        rw [itemLoop] at hq
        rw [if_pos ht] at hq
        simp only [herr, List.mem_cons] at hq
        rcases hq with hq | hq
        · rw [stepParams_live verb params ht] at hq
          exact ⟨tokenValue rt, tokenValue_ne_of_live ht, hq⟩
        · exact ih (stepParams verb rt params) (get_resumption_token p) q hq

/-- C2: whenever the raw query holds a non-None resumptionToken, the
effective query (after filter_dict_except_resumption_token and
remove_none_values) carries only the keys verb and resumptionToken - in
particular when other non-None filters are present; and every follow-up
page request of an item-iterator run (every query after the first) is
exactly the two-entry query resumptionToken, verb built from a live
non-empty token. -/
theorem c2_token_exclusivity :
    (∀ (d : RawQuery) (t : String) (r : RawQuery),
        dictGet d "resumptionToken" = some (some t) →
        filter_dict_except_resumption_token d = Except.ok r →
        ∀ kv ∈ remove_none_values r, kv.1 = "verb" ∨ kv.1 = "resumptionToken")
    ∧ (∀ (verb : String) (ign : Bool) (q0 : Query) (pages : List Page) (q : Query),
        q ∈ (runItemIterator verb ign q0 pages).queries.tail →
        ∃ s, s ≠ "" ∧ q = [("resumptionToken", s), ("verb", verb)]) := by
  constructor
  · intro d t r hget hfilt kv hkv
    have heq : (Except.ok r : Except String RawQuery)
        = Except.ok (d.filter (fun kv => allowed_keys.contains kv.1)) := by
      rw [← hfilt]
      unfold filter_dict_except_resumption_token
      rw [hget]
      rfl
    have hr : r = d.filter (fun kv => allowed_keys.contains kv.1) := Except.ok.inj heq
    subst hr
    simp only [remove_none_values, List.mem_filterMap] at hkv
    obtain ⟨⟨k', v'⟩, hmem, hmap⟩ := hkv
    obtain ⟨v, hv, hkv'⟩ := Option.map_eq_some'.mp hmap
    have hk : kv.1 = k' := by rw [← hkv']
    rw [hk]
    have hcont := (List.mem_filter.mp hmem).2
    simpa [allowed_keys] using hcont
  · intro verb ign q0 pages q hq
    cases pages with
    | nil => simp [runItemIterator] at hq
    | cons p rest =>
      cases hc : constructIterator p with
      | error e => simp [runItemIterator, hc] at hq
      | ok pr =>
        obtain ⟨rt, items⟩ := pr
        simp only [runItemIterator, hc, List.tail_cons] at hq
        exact itemLoop_queries_shape verb ign rest q0 rt q hq

/-- Witness for C2 at a concrete two-page run with token t1. -/
theorem c2_witness :
    ∃ s, s ≠ "" ∧ ([("resumptionToken", "t1"), ("verb", "ListRecords")] : Query)
        = [("resumptionToken", s), ("verb", "ListRecords")] :=
  c2_token_exclusivity.2 "ListRecords" false [("verb", "ListRecords")]
    [Page.mk none (some (TokenElem.mk (some "t1") none none none)) [],
     Page.mk none none []]
    [("resumptionToken", "t1"), ("verb", "ListRecords")] (by decide)

end OaipmhScythe
